import Mathlib

/-!
Verification development for the broker-link / account-sync workflow of the
qeem2 repository (src/src/utils/snaptrade.ts, the callback route
src/src/app/api/snaptrade/callback/route.ts, and the connection-link route).

The TypeScript code is shallowly embedded: every outbound `fetch` is modelled
by an oracle indexed by the attempt number (attempt 0 is the first call; a
retrying wrapper consults later indices), platform `await` effects become
explicit data flow, thrown errors become `Except.error` carrying the message
string, and database writes become an explicit ordered trace of events.
JavaScript numbers are modelled as rationals.
-/

/-- One attempt of the platform `fetch`: either the promise rejects with a
transport error (the `catch` branch of `fetchWithRetry`) or it resolves to a
response. `ρ` is the (already modelled) response type. -/
def FetchOracle (ε ρ : Type) : Type := Nat → Except ε ρ

/-- Embedding of `fetchWithRetry` (src/src/utils/snaptrade.ts:22-40).

`oracle n` is the outcome of the `(n+1)`-th underlying `fetch` of this call.
The result records, in order: the attempt indices at which `fetch` was
actually invoked, the delays (ms) waited between attempts, and the final
outcome.  A resolved response — of any HTTP status — is returned immediately;
only a rejected promise is retried, and when `retries` hits 0 the last error
propagates. -/
def fetchWithRetry {ε ρ : Type} (oracle : FetchOracle ε ρ)
    (attempt : Nat) (retries : Nat) (delay : Nat) :
    List Nat × List Nat × Except ε ρ :=
  match oracle attempt with
  | .ok r => ([attempt], [], .ok r)
  | .error e =>
    match retries with
    | 0 => ([attempt], [], .error e)
    | r + 1 =>
      let rest := fetchWithRetry oracle (attempt + 1) r (delay * 2)
      (attempt :: rest.1, delay :: rest.2.1, rest.2.2)

/-- The calls-made component of `fetchWithRetry`. -/
def retryCalls {ε ρ : Type} (oracle : FetchOracle ε ρ) : List Nat :=
  (fetchWithRetry oracle 0 3 1000).1

/-- The delays-waited component of `fetchWithRetry` at the source's call
sites, which all pass `retries = 3, delay = 1000`. -/
def retryDelays {ε ρ : Type} (oracle : FetchOracle ε ρ) : List Nat :=
  (fetchWithRetry oracle 0 3 1000).2.1

/-- The final outcome of `fetchWithRetry` at the source's call sites. -/
def retryResult {ε ρ : Type} (oracle : FetchOracle ε ρ) : Except ε ρ :=
  (fetchWithRetry oracle 0 3 1000).2.2

/-- Result value of `handleSnapTradeCallback`
(src/src/utils/snaptrade.ts:509-535). -/
structure CallbackResult where
  success : Bool
  message : String
  accountId : String
deriving DecidableEq

/-- Embedding of `handleSnapTradeCallback` (src/src/utils/snaptrade.ts:509-535).

`now` models `Date.now()`.  The first component of the result is the ordered
list of outbound calls to the external service made during the run; the
function's body performs none (it is a stub that logs and returns a success
record), so that list is built solely from the code path taken. -/
def handleSnapTradeCallback (clientId consumerKey : String)
    (userId code : String) (now : Nat) :
    List String × Except String CallbackResult :=
  if clientId = "" ∨ consumerKey = "" then
    ([], .error "SnapTrade API credentials not configured")
  else
    ([], .ok { success := true
               message := "Account connected successfully"
               accountId := "snaptrade-account-" ++ toString now })

/-- An HTTP response as the holdings code observes it: the `ok` flag
(`status` in 200..299), the numeric status, and the body with `.json()`
already applied (the model delivers parsed data; a body that fails to parse
is modelled as the oracle rejecting). -/
structure HttpJson (α : Type) where
  ok : Bool
  status : Nat
  body : α
deriving DecidableEq

/-- One entry of an account's balances list
(`balances.find((b) => b.currency === "USD" && b.cash)`,
src/src/utils/snaptrade.ts:99-104).  `cash` is the truthiness of `b.cash`
and `amount` is `parseFloat(b.amount)`. -/
structure Balance where
  currency : String
  cash : Bool
  amount : Rat
deriving DecidableEq

/-- One account as returned by `GET /accounts` (fields read at
src/src/utils/snaptrade.ts:85, 141-143).  `brokerName = ""` models a
missing/falsy `account.brokerName`. -/
structure Account where
  id : String
  name : String
  brokerName : String
deriving DecidableEq

/-- One raw holding as returned by `GET /accounts/{id}/holdings` (fields read
at src/src/utils/snaptrade.ts:131-144).  `description = ""` models a falsy
`holding.description`; `openPnl` is `parseFloat(holding.openPnl || 0)`. -/
structure RawHolding where
  symbol : String
  description : String
  quantity : Rat
  price : Rat
  openPnl : Rat
  bookValue : Rat
deriving DecidableEq

/-- A processed holding pushed onto `allHoldings`
(src/src/utils/snaptrade.ts:132-144, 150-161). -/
structure Holding where
  symbol : String
  name : String
  quantity : Rat
  pricePerShare : Rat
  totalValue : Rat
  gainLoss : Rat
  purchasePrice : Rat
  accountId : String
  accountName : String
  brokerName : String
deriving DecidableEq

/-- The three aggregation-API endpoints `fetchSnapTradeHoldings` calls, each
as an attempt-indexed oracle.  The source invokes all three with the plain
`fetch` (src/src/utils/snaptrade.ts:56, 84, 108), which performs exactly one
attempt: attempt index 0. -/
structure HoldingsEnv where
  accountsFetch : FetchOracle String (HttpJson (List Account))
  balancesFetch : String → FetchOracle String (HttpJson (List Balance))
  holdingsFetch : String → FetchOracle String (HttpJson (List RawHolding))

/-- `balances.find((b) => b.currency === "USD" && b.cash)` followed by the
`if (cashBalance)` guard: the amount of the first USD cash balance, or 0. -/
def usdCashBalance (bs : List Balance) : Rat :=
  match bs.find? (fun b => b.currency == "USD" && b.cash) with
  | some b => b.amount
  | none => 0

/-- The object pushed for one raw holding (src/src/utils/snaptrade.ts:132-144). -/
def toHolding (account : Account) (h : RawHolding) : Holding :=
  { symbol := h.symbol
    name := if h.description = "" then h.symbol else h.description
    quantity := h.quantity
    pricePerShare := h.price
    totalValue := h.price * h.quantity
    gainLoss := h.openPnl
    purchasePrice := h.bookValue / h.quantity
    accountId := account.id
    accountName := account.name
    brokerName := if account.brokerName = "" then "SnapTrade" else account.brokerName }

/-- The synthetic cash holding (src/src/utils/snaptrade.ts:150-161). -/
def cashHolding (totalCash : Rat) : Holding :=
  { symbol := "CASH"
    name := "Cash Balance"
    quantity := 1
    pricePerShare := totalCash
    totalValue := totalCash
    gainLoss := 0
    purchasePrice := totalCash
    accountId := "cash"
    accountName := "Cash"
    brokerName := "SnapTrade" }

/-- The `for (const account of accounts)` loop of `fetchSnapTradeHoldings`
(src/src/utils/snaptrade.ts:82-146), threading `allHoldings` and `totalCash`.
A rejected fetch (transport error) escapes the loop; a resolved non-ok
balances response skips only that account's cash; a resolved non-ok holdings
response hits `continue`, skipping that account's positions (its cash, read
earlier in the loop body, is already counted). -/
def processAccounts (env : HoldingsEnv) :
    List Account → List Holding → Rat → Except String (List Holding × Rat)
  | [], allHoldings, totalCash => .ok (allHoldings, totalCash)
  | account :: rest, allHoldings, totalCash =>
    match env.balancesFetch account.id 0 with
    | .error e => .error e
    | .ok bresp =>
      let totalCash' :=
        if bresp.ok then totalCash + usdCashBalance bresp.body else totalCash
      match env.holdingsFetch account.id 0 with
      | .error e => .error e
      | .ok hresp =>
        if hresp.ok then
          processAccounts env rest
            (allHoldings ++ hresp.body.map (toHolding account)) totalCash'
        else
          processAccounts env rest allHoldings totalCash'

/-- Embedding of `fetchSnapTradeHoldings` (src/src/utils/snaptrade.ts:47-221).
The `catch` at line 165 rethrows, so errors propagate unchanged; the mock
data after the `return` (lines 171-220) is unreachable and not modelled. -/
def fetchSnapTradeHoldings (clientId consumerKey : String) (env : HoldingsEnv)
    (userId : String) : Except String (List Holding) :=
  if clientId = "" ∨ consumerKey = "" then
    .error "SnapTrade API credentials not configured"
  else
    match env.accountsFetch 0 with
    | .error e => .error e
    | .ok aresp =>
      if aresp.ok then
        match processAccounts env aresp.body [] 0 with
        | .error e => .error e
        | .ok (allHoldings, totalCash) =>
          if 0 < totalCash then .ok (allHoldings ++ [cashHolding totalCash])
          else .ok allHoldings
      else .error ("Failed to fetch accounts: " ++ toString aresp.status)

/-- The cash contribution one account makes to `totalCash`. -/
def accountCash (env : HoldingsEnv) (account : Account) : Rat :=
  match env.balancesFetch account.id 0 with
  | .error _ => 0
  | .ok bresp => if bresp.ok then usdCashBalance bresp.body else 0

/-- The total cash the loop accumulates over a list of accounts. -/
def sumCash (env : HoldingsEnv) (accounts : List Account) : Rat :=
  (accounts.map (accountCash env)).sum

/-- Fixture: an account with a broker name and a USD cash balance. -/
def acctA : Account := { id := "acct-A", name := "Account A", brokerName := "BrokerX" }

/-- Fixture: an account with no broker name and no balances. -/
def acctB : Account := { id := "acct-B", name := "Account B", brokerName := "" }

/-- Fixture: a raw AAPL position. -/
def rawAAPL : RawHolding :=
  { symbol := "AAPL", description := "Apple Inc.", quantity := 10, price := 150
    openPnl := 25, bookValue := 1250 }

/-- Fixture environment: two accounts; `acct-A` has $50 USD cash but its
holdings fetch returns HTTP 500; `acct-B` has no cash and one AAPL position. -/
def envTwoAccounts : HoldingsEnv :=
  { accountsFetch := fun _ => .ok ⟨true, 200, [acctA, acctB]⟩
    balancesFetch := fun aid _ =>
      if aid = "acct-A" then
        .ok ⟨true, 200, [{ currency := "USD", cash := true, amount := 50 }]⟩
      else .ok ⟨true, 200, []⟩
    holdingsFetch := fun aid _ =>
      if aid = "acct-A" then .ok ⟨false, 500, []⟩
      else .ok ⟨true, 200, [rawAAPL]⟩ }

/-- JSON whitespace, as skipped by the platform `JSON.parse` (the model also
uses this set for `String.prototype.trim`; the few extra Unicode space
characters the latter strips are all invalid JSON start characters, so no
modelled property depends on the difference). -/
def isJsWs (c : Char) : Bool := c = ' ' || c = '\t' || c = '\n' || c = '\r'

/-- Drop leading whitespace. -/
def skipWs (cs : List Char) : List Char := cs.dropWhile isJsWs

/-- Drop trailing whitespace (the tail half of `String.prototype.trim`). -/
def trimEnd : List Char → List Char
  | [] => []
  | c :: rest =>
    match trimEnd rest with
    | [] => if isJsWs c then [] else [c]
    | x :: xs => c :: x :: xs

/-- Model of `responseText.trim()` (src/src/utils/snaptrade.ts:288-289). -/
def jsTrim (cs : List Char) : List Char := trimEnd (skipWs cs)

/-- The characters of the literal `"<!DOCTYPE"` tested at
src/src/utils/snaptrade.ts:288 and 407. -/
def docTypeLit : List Char := ['<', '!', 'D', 'O', 'C', 'T', 'Y', 'P', 'E']

/-- The characters of the literal `"<html"` tested at
src/src/utils/snaptrade.ts:289 and 408. -/
def htmlLit : List Char := ['<', 'h', 't', 'm', 'l']

/-- `responseText.trim().startsWith("<!DOCTYPE") ||
responseText.trim().startsWith("<html")` (src/src/utils/snaptrade.ts:287-290). -/
def trimStartsWithHtml (cs : List Char) : Bool :=
  docTypeLit.isPrefixOf (jsTrim cs) || htmlLit.isPrefixOf (jsTrim cs)

/-- JSON values, as produced by the platform `JSON.parse`. -/
inductive Json where
  | null
  | bool (b : Bool)
  | num (q : Rat)
  | str (s : String)
  | arr (elems : List Json)
  | obj (fields : List (String × Json))

/-- JavaScript property read `j.name` on a parsed JSON value: `none` models
`undefined` (read on a non-object, or an absent key). -/
def Json.getField (j : Json) (name : String) : Option Json :=
  match j with
  | .obj fields => (fields.find? (fun f => f.1 == name)).map (fun f => f.2)
  | _ => none

/-- JavaScript truthiness of a parsed JSON value. -/
def Json.truthy : Json → Bool
  | .null => false
  | .bool b => b
  | .num q => decide (q ≠ 0)
  | .str s => decide (s ≠ "")
  | .arr _ => true
  | .obj _ => true

/-- Truthiness of `j.name`: `false` when the read yields `undefined`. -/
def Json.truthyField (j : Json) (name : String) : Bool :=
  match j.getField name with
  | some v => v.truthy
  | none => false

/-- Template-literal stringification of a JSON value; only used inside error
messages, where the source interpolates `proxyData.error` etc.  Arrays and
objects are rendered approximately (no modelled property reads the result). -/
def jsToString : Json → String
  | .null => "null"
  | .bool b => if b then "true" else "false"
  | .num q => toString q
  | .str s => s
  | .arr _ => ""
  | .obj _ => "[object Object]"

/-- Value of a hexadecimal digit, for `\uXXXX` string escapes. -/
def hexVal (c : Char) : Option Nat :=
  if c.isDigit then some (c.toNat - '0'.toNat)
  else if 'a' ≤ c ∧ c ≤ 'f' then some (c.toNat - 'a'.toNat + 10)
  else if 'A' ≤ c ∧ c ≤ 'F' then some (c.toNat - 'A'.toNat + 10)
  else none

/-- Single-character JSON string escapes. -/
def escChar (c : Char) : Option Char :=
  if c = '"' then some '"'
  else if c = '\\' then some '\\'
  else if c = '/' then some '/'
  else if c = 'b' then some (Char.ofNat 8)
  else if c = 'f' then some (Char.ofNat 12)
  else if c = 'n' then some '\n'
  else if c = 'r' then some '\r'
  else if c = 't' then some '\t'
  else none

/-- Body of a JSON string literal after the opening quote: returns the decoded
characters and the input remaining after the closing quote. -/
def parseStrRest : List Char → Option (List Char × List Char)
  | [] => none
  | '"' :: rest => some ([], rest)
  | '\\' :: 'u' :: h1 :: h2 :: h3 :: h4 :: rest => do
    let a ← hexVal h1
    let b ← hexVal h2
    let c ← hexVal h3
    let d ← hexVal h4
    let (s, r) ← parseStrRest rest
    some (Char.ofNat (((a * 16 + b) * 16 + c) * 16 + d) :: s, r)
  | '\\' :: e :: rest => do
    let c ← escChar e
    let (s, r) ← parseStrRest rest
    some (c :: s, r)
  | c :: rest => do
    let (s, r) ← parseStrRest rest
    some (c :: s, r)

/-- Decimal digits to a natural number. -/
def digitsToNat (ds : List Char) : Nat :=
  ds.foldl (fun acc c => acc * 10 + (c.toNat - '0'.toNat)) 0

/-- Optional exponent part of a JSON number (after `e`/`E`). -/
def parseExpSign (cs : List Char) : Option (Int × List Char) :=
  let (eneg, r) :=
    match cs with
    | '+' :: r2 => (false, r2)
    | '-' :: r2 => (true, r2)
    | _ => (false, cs)
  let eds := r.takeWhile Char.isDigit
  if eds.isEmpty then none
  else
    some (if eneg then -(digitsToNat eds : Int) else (digitsToNat eds : Int),
      r.drop eds.length)

/-- Exponent part of a JSON number, if present. -/
def parseExp (cs : List Char) : Option (Int × List Char) :=
  match cs with
  | 'e' :: r => parseExpSign r
  | 'E' :: r => parseExpSign r
  | _ => some (0, cs)

/-- Scale a parsed mantissa by a decimal exponent. -/
def applyExp (q : Rat) (e : Int) : Rat :=
  if 0 ≤ e then q * (10 : Rat) ^ e.toNat else q / (10 : Rat) ^ (-e).toNat

/-- A JSON number starting at the given input. -/
def parseNumber (cs : List Char) : Option (Rat × List Char) :=
  let (neg, cs0) := match cs with | '-' :: r => (true, r) | _ => (false, cs)
  let intDs := cs0.takeWhile Char.isDigit
  if intDs.isEmpty then none
  else
    let cs1 := cs0.drop intDs.length
    let fracRes : Option (Nat × Nat × List Char) :=
      match cs1 with
      | '.' :: r =>
        let fds := r.takeWhile Char.isDigit
        if fds.isEmpty then none
        else some (digitsToNat (intDs ++ fds), fds.length, r.drop fds.length)
      | _ => some (digitsToNat intDs, 0, cs1)
    match fracRes with
    | none => none
    | some (mant, scale, cs2) =>
      match parseExp cs2 with
      | none => none
      | some (ex, cs3) =>
        let base : Rat := (mant : Rat) / (10 : Rat) ^ scale
        some (applyExp (if neg then -base else base) ex, cs3)

mutual

/-- One JSON value starting at the given input (fuel-indexed; each recursive
call consumes at least one character, so fuel `length + 1` always suffices). -/
def parseValue : Nat → List Char → Option (Json × List Char)
  | 0, _ => none
  | fuel + 1, cs =>
    match skipWs cs with
    | [] => none
    | c :: rest =>
      if c = '{' then
        match skipWs rest with
        | '}' :: r2 => some (.obj [], r2)
        | _ => parseMembers fuel rest []
      else if c = '[' then
        match skipWs rest with
        | ']' :: r2 => some (.arr [], r2)
        | _ => parseElems fuel rest []
      else if c = '"' then
        match parseStrRest rest with
        | some (s, r) => some (.str (String.mk s), r)
        | none => none
      else if c = 't' then
        match rest with
        | 'r' :: 'u' :: 'e' :: r => some (.bool true, r)
        | _ => none
      else if c = 'f' then
        match rest with
        | 'a' :: 'l' :: 's' :: 'e' :: r => some (.bool false, r)
        | _ => none
      else if c = 'n' then
        match rest with
        | 'u' :: 'l' :: 'l' :: r => some (.null, r)
        | _ => none
      else if c = '-' ∨ c.isDigit then
        match parseNumber (c :: rest) with
        | some (q, r) => some (.num q, r)
        | none => none
      else none

/-- Members of a JSON object after the opening brace (at least one member). -/
def parseMembers : Nat → List Char → List (String × Json) →
    Option (Json × List Char)
  | 0, _, _ => none
  | fuel + 1, cs, acc =>
    match skipWs cs with
    | '"' :: rest =>
      match parseStrRest rest with
      | none => none
      | some (key, r1) =>
        match skipWs r1 with
        | ':' :: r2 =>
          match parseValue fuel r2 with
          | none => none
          | some (v, r3) =>
            match skipWs r3 with
            | ',' :: r4 => parseMembers fuel r4 (acc ++ [(String.mk key, v)])
            | '}' :: r4 => some (.obj (acc ++ [(String.mk key, v)]), r4)
            | _ => none
        | _ => none
    | _ => none

/-- Elements of a JSON array after the opening bracket (at least one element). -/
def parseElems : Nat → List Char → List Json → Option (Json × List Char)
  | 0, _, _ => none
  | fuel + 1, cs, acc =>
    match parseValue fuel cs with
    | none => none
    | some (v, r1) =>
      match skipWs r1 with
      | ',' :: r2 => parseElems fuel r2 (acc ++ [v])
      | ']' :: r2 => some (.arr (acc ++ [v]), r2)
      | _ => none

end

/-- Model of the platform `JSON.parse`: a whole-input JSON document, or
`none` when parsing fails (the callers' `catch (parseError)` branch). -/
def jsonParse (cs : List Char) : Option Json :=
  match parseValue (cs.length + 1) cs with
  | some (v, rest) => if (skipWs rest).isEmpty then some v else none
  | none => none

/-- A raw `fetch` response as `createSnapTradeUserLink` observes it:
`ok`/`status`/`statusText`, and the body text (`response.text()`). -/
structure RawResp where
  ok : Bool
  status : Nat
  statusText : String
  text : String

/-- The two outbound calls `createSnapTradeUserLink` makes (register user,
then connection portal), each as an attempt-indexed oracle.  Both are issued
through `fetchWithRetry` with `retries = 3, delay = 1000`
(src/src/utils/snaptrade.ts:253-276, 335-351, 370-395, 454-472). -/
structure LinkEnv where
  registerFetch : FetchOracle String RawResp
  portalFetch : FetchOracle String RawResp

/-- `s.substring(0, n)`. -/
def takeChars (n : Nat) (s : String) : String := String.mk (s.data.take n)

/-- The HTML-response error message thrown at src/src/utils/snaptrade.ts:295-297
and 414-416. -/
def htmlErrMsg (responseText : String) : String :=
  "Received HTML response from SnapTrade API. The service might be down or experiencing issues. HTML preview: "
    ++ (takeChars 100 responseText ++ "...")

/-- The engine-supplied `SyntaxError.message` of a failed `JSON.parse` is
environment-specific; the model renders it as this fixed placeholder. -/
def jsonParseErrDetail : String := "Unexpected token in JSON"

/-- The generic parse-failure message thrown at src/src/utils/snaptrade.ts:299-301
and 418-420. -/
def parseFailMsg (responseText : String) : String :=
  "Failed to parse response from SnapTrade API: " ++ jsonParseErrDetail
    ++ (". Raw response: " ++ (takeChars 100 responseText ++ "..."))

/-- The wrapper applied by the outer `catch` at src/src/utils/snaptrade.ts:304-312
and 423-431 to any non-HTML read/parse failure. -/
def readFailMsg (inner : String) : String :=
  "Failed to read response from SnapTrade API: " ++ inner

/-- The engine-supplied `SyntaxError.message` when `.json()` runs on an
empty/null response body (`JSON.parse("")`); environment-specific, rendered
as this fixed placeholder. -/
def jsonEmptyBodyErrDetail : String := "Unexpected end of JSON input"

/-- A `Response` as the two call steps of `createSnapTradeUserLink` observe
it: the `ok` flag, the numeric status, and `jsonBody` — the outcome of
`await resp.json()` at the call sites in the function body (the parsed
value, or the raw engine parse error the call throws).  For the mock
`Response` built from the proxy envelope (src/src/utils/snaptrade.ts:328-332),
`JSON.stringify(proxyData.data)` followed by `.json()` is the identity on a
present `data` value; when the envelope has no `data` field,
`JSON.stringify(undefined)` is `undefined`, the `Response` body is null, and
`.json()` throws the end-of-input parse error. -/
structure JsResp where
  ok : Bool
  status : Rat
  jsonBody : Except String Json

/-- `v || fallback` rendered into a template literal: the stringified value
when truthy, else the fallback string. -/
def jsOrStr (v : Option Json) (fallback : String) : String :=
  match v with
  | some j => if j.truthy then jsToString j else fallback
  | none => fallback

/-- Truthiness of `proxyData.data && proxyData.data.error`
(src/src/utils/snaptrade.ts:321). -/
def dataErrTruthy (proxyData : Json) : Bool :=
  match proxyData.getField "data" with
  | some d => d.truthy && d.truthyField "error"
  | none => false

/-- `${proxyData.error || proxyData.data.error || proxyResponse.statusText}`
(src/src/utils/snaptrade.ts:323). -/
def proxyErrMsg (proxyData : Json) (statusText : String) : String :=
  jsOrStr (proxyData.getField "error")
    (jsOrStr ((proxyData.getField "data").bind (fun d => d.getField "error"))
      statusText)

/-- The browser-path proxy call and envelope unwrap shared by the register
and portal steps of `createSnapTradeUserLink`
(src/src/utils/snaptrade.ts:253-332 and 370-451): call the relay through
`fetchWithRetry`; read the body text; parse it, classifying a parse failure
as the HTML-response error when the trimmed body starts with `<!DOCTYPE` or
`<html` and as the (wrapped) generic parse failure otherwise; reject a
non-ok relay response or an `error` field inside the envelope; otherwise
rebuild the wrapped response (a missing or non-numeric `status` field falls
back to the `Response` constructor's default 200, and a missing `data`
field gives the null-body mock `Response` whose later `.json()` throws). -/
def proxyStep (oracle : FetchOracle String RawResp) : Except String JsResp :=
  match retryResult oracle with
  | .error e => .error e
  | .ok proxyResponse =>
    let responseText := proxyResponse.text
    match jsonParse responseText.data with
    | none =>
      if trimStartsWithHtml responseText.data then
        .error (htmlErrMsg responseText)
      else
        .error (readFailMsg (parseFailMsg responseText))
    | some proxyData =>
      if !proxyResponse.ok then
        .error ("Proxy error: " ++
          jsOrStr (proxyData.getField "error") proxyResponse.statusText)
      else if proxyData.truthyField "error" || dataErrTruthy proxyData then
        .error ("Proxy error: " ++ proxyErrMsg proxyData proxyResponse.statusText)
      else
        let status : Rat :=
          match proxyData.getField "status" with
          | some (.num q) => q
          | _ => 200
        .ok { ok := decide ((200 : Rat) ≤ status ∧ status < 300)
              status := status
              jsonBody :=
                match proxyData.getField "data" with
                | some d => .ok d
                | none => .error jsonEmptyBodyErrDetail }

/-- The server-path direct call of `createSnapTradeUserLink`
(src/src/utils/snaptrade.ts:335-351 and 454-472).  `jsonBody` is what the
later `.json()` of this real `Response` yields: the parsed body text, or the
raw engine parse error when the text is not valid JSON (the direct path has
no HTML detection). -/
def directStep (oracle : FetchOracle String RawResp) : Except String JsResp :=
  match retryResult oracle with
  | .error e => .error e
  | .ok resp =>
    .ok { ok := resp.ok
          status := (resp.status : Rat)
          jsonBody :=
            match jsonParse resp.text.data with
            | some v => .ok v
            | none => .error jsonParseErrDetail }

/-- Embedding of `createSnapTradeUserLink` (src/src/utils/snaptrade.ts:230-501).
Returns the `redirectURI` value from the portal response.  Each
`await resp.json()` in the source (lines 355, 362, 476, 483) is the
response's `jsonBody`; when it throws, the error propagates (a `SyntaxError`
is not a `TypeError`, so the outer catch at 491-500 rethrows it unchanged;
that catch's `TypeError`-specific network rewrap for transport failures that
exhaust the retry budget is not modelled — no claim concerns it). -/
def createSnapTradeUserLink (clientId consumerKey : String) (useProxy : Bool)
    (env : LinkEnv) (userId redirectUri : String) (brokerId : Option String) :
    Except String Json :=
  if clientId = "" ∨ consumerKey = "" then
    .error "SnapTrade API credentials not configured"
  else
    match if useProxy then proxyStep env.registerFetch
          else directStep env.registerFetch with
    | .error e => .error e
    | .ok userResponse =>
      if !userResponse.ok then
        match userResponse.jsonBody with
        | .error pe => .error pe
        | .ok _errorData =>
          .error ("Failed to register user with SnapTrade: " ++
            toString userResponse.status)
      else
        match userResponse.jsonBody with
        | .error pe => .error pe
        | .ok _userData =>
          match if useProxy then proxyStep env.portalFetch
                else directStep env.portalFetch with
          | .error e => .error e
          | .ok portalResponse =>
            if !portalResponse.ok then
              match portalResponse.jsonBody with
              | .error pe => .error pe
              | .ok _errorData =>
                .error ("Failed to generate SnapTrade portal: " ++
                  toString portalResponse.status)
            else
              match portalResponse.jsonBody with
              | .error pe => .error pe
              | .ok portalData =>
                if !portalData.truthyField "redirectURI" then
                  .error "No redirect URI returned from SnapTrade"
                else
                  .ok ((portalData.getField "redirectURI").getD .null)

/-- Fixture: a holdings environment whose accounts fetch fails once at the
transport level and would succeed on any later attempt. -/
def envTransient : HoldingsEnv :=
  { accountsFetch := fun n =>
      if n = 0 then .error "network down" else .ok ⟨true, 200, []⟩
    balancesFetch := fun _ _ => .ok ⟨true, 200, []⟩
    holdingsFetch := fun _ _ => .ok ⟨true, 200, []⟩ }

/-- Fixture: a holdings environment whose balances fetch rejects. -/
def envBalancesFail : HoldingsEnv :=
  { accountsFetch := fun _ => .ok ⟨true, 200, [acctA]⟩
    balancesFetch := fun _ _ => .error "balances network fail"
    holdingsFetch := fun _ _ => .ok ⟨true, 200, []⟩ }

/-- Fixture: a holdings environment whose holdings fetch rejects. -/
def envHoldingsFail : HoldingsEnv :=
  { accountsFetch := fun _ => .ok ⟨true, 200, [acctA]⟩
    balancesFetch := fun _ _ => .ok ⟨true, 200, []⟩
    holdingsFetch := fun _ _ => .error "holdings network fail" }

/-- Fixture: a proxy envelope for a successful registration — it carries a
`data` field (so the mock `Response` has a JSON body) and no `status`, so
the `Response` constructor's default status 200 applies. -/
def goodEnvelope : String := "\x7b\"data\":\x7b\x7d\x7d"

/-- Fixture: link environment whose register-step relay answers with an HTML
error page. -/
def linkEnvHtml : LinkEnv :=
  { registerFetch := fun _ => .ok ⟨true, 200, "OK", "<!DOCTYPE html><body>502</body>"⟩
    portalFetch := fun _ => .ok ⟨true, 200, "OK", "\x7b\x7d"⟩ }

/-- Fixture: link environment whose register step succeeds and whose
portal-step relay answers with an HTML error page. -/
def linkEnvHtmlPortal : LinkEnv :=
  { registerFetch := fun _ => .ok ⟨true, 200, "OK", goodEnvelope⟩
    portalFetch := fun _ => .ok ⟨true, 200, "OK", "<html><body>down</body></html>"⟩ }

/-- Fixture: link environment whose register call fails once at the transport
level, then succeeds. -/
def linkEnvRetry : LinkEnv :=
  { registerFetch := fun n =>
      if n = 0 then .error "transient" else .ok ⟨true, 200, "OK", "\x7b\x7d"⟩
    portalFetch := fun _ => .ok ⟨true, 200, "OK", "\x7b\x7d"⟩ }

/-- JavaScript falsiness of a nullable string (`null`/absent or `""`). -/
def jsFalsy : Option String → Bool
  | none => true
  | some s => s = ""

/-- `a || b` on strings (`""` is falsy). -/
def jsOrS (a b : String) : String := if a = "" then b else a

/-- Model of `encodeURIComponent` as the identity: no modelled property
depends on percent-escaping of the redirect query string. -/
def encodeURIComponent (s : String) : String := s

/-- The `broker_data` JSON blob stored with a BrokerConnection row:
`{connected_at: ...}` at src/src/app/api/snaptrade/callback/route.ts:87,
`{connection_started: ...}` at the connection-link route.  Timestamps are
modelled by the `now` clock value. -/
inductive BrokerData where
  | connectedAt (t : Nat)
  | connectionStarted (t : Nat)
deriving DecidableEq

/-- A `broker_connections` insert.  `is_active = none` models an insert that
does not set the column (the callback route's insert omits it). -/
structure BrokerConnectionRow where
  user_id : String
  broker_id : String
  api_key : String
  api_secret_encrypted : String
  is_active : Option Bool
  broker_data : BrokerData
deriving DecidableEq

/-- The `metadata` map of an `assets` insert
(src/src/app/api/snaptrade/callback/route.ts:137-148). -/
structure AssetMetadata where
  symbol : String
  price_per_share : Rat
  purchase_price : Rat
  quantity : Rat
  currency : String
  asset_type : String
  source : String
  account_id : String
  account_name : String
  broker_name : String
deriving DecidableEq

/-- An `assets` insert (src/src/app/api/snaptrade/callback/route.ts:127-149). -/
structure AssetRow where
  name : String
  value : Rat
  description : String
  location : String
  acquisition_date : Nat
  acquisition_value : Rat
  category_id : String
  is_liability : Bool
  user_id : String
  metadata : AssetMetadata
deriving DecidableEq

/-- The ordered trace of externally visible actions the callback handler
performs: the adapter exchange, each database insert, and the holdings
fetch. -/
inductive CbEvent where
  | callbackExchange (userId code : String)
  | insertBrokerConnection (row : BrokerConnectionRow)
  | fetchHoldingsCall (userId : String)
  | insertAsset (row : AssetRow)
deriving DecidableEq

/-- The query parameters the callback route reads
(src/src/app/api/snaptrade/callback/route.ts:17-20); `none` models an absent
parameter (`searchParams.get` returning `null`). -/
structure CallbackRequest where
  userId : Option String
  accountId : Option String
  success : Option String
  code : Option String

/-- The database collaborator as the callback route observes it:
`supabase.auth.getUser()` (error message, or the possibly-absent user id),
the error of the `broker_connections` insert if any, and the
`asset_categories` lookup (error message, or the possibly-absent category
id).  Per-asset insert errors are logged and ignored by the route
(lines 151-153), so they have no observable effect to model. -/
structure CallbackEnv where
  getUser : Except String (Option String)
  insertConnectionError : Option String
  category : Except String (Option String)

/-- The connected-state BrokerConnection row the callback route inserts
(src/src/app/api/snaptrade/callback/route.ts:80-88). -/
def connectedRow (userId : String) (now : Nat) : BrokerConnectionRow :=
  { user_id := userId
    broker_id := "snaptrade"
    api_key := "snaptrade_connection"
    api_secret_encrypted := "snaptrade_connection"
    is_active := none
    broker_data := .connectedAt now }

/-- The error redirect built by the route's outer catch
(src/src/app/api/snaptrade/callback/route.ts:169-174). -/
def errRedirect (msg : String) : String :=
  "/dashboard/assets?error=true&message=" ++ encodeURIComponent msg

/-- One `assets` row built from a holding
(src/src/app/api/snaptrade/callback/route.ts:127-149); `now` models both
`new Date().toISOString()` timestamps. -/
def assetRowOf (userId categoryId : String) (reqAccountId : Option String)
    (now : Nat) (h : Holding) : AssetRow :=
  { name := h.name
    value := h.totalValue
    description := toString h.quantity ++ " shares of " ++ h.symbol
    location := jsOrS h.brokerName "SnapTrade"
    acquisition_date := now
    acquisition_value := h.purchasePrice * h.quantity
    category_id := categoryId
    is_liability := false
    user_id := userId
    metadata :=
      { symbol := h.symbol
        price_per_share := h.pricePerShare
        purchase_price := h.purchasePrice
        quantity := h.quantity
        currency := "USD"
        asset_type := if h.symbol = "CASH" then "cash" else "stock"
        source := "snaptrade"
        account_id := jsOrS h.accountId (jsOrS (reqAccountId.getD "") "default")
        account_name := jsOrS h.accountName "Investment Account"
        broker_name := jsOrS h.brokerName "SnapTrade" } }

/-- The `if (code)` block of the callback route
(src/src/app/api/snaptrade/callback/route.ts:73-95): exchange the code via
`handleSnapTradeCallback`; on success insert the connected BrokerConnection,
a failed insert throwing `Connection error: ...`.  Returns the events so far,
or the thrown message with the events already performed. -/
def codePhase (clientId consumerKey : String) (now : Nat) (env : CallbackEnv)
    (userId : String) (code : Option String) :
    Except (String × List CbEvent) (List CbEvent) :=
  if jsFalsy code then .ok []
  else
    let c := code.getD ""
    let ev0 := [CbEvent.callbackExchange userId c]
    match (handleSnapTradeCallback clientId consumerKey userId c now).2 with
    | .error m => .error (m, ev0)
    | .ok res =>
      if res.success then
        let ev1 := ev0 ++ [CbEvent.insertBrokerConnection (connectedRow userId now)]
        match env.insertConnectionError with
        | some m => .error ("Connection error: " ++ m, ev1)
        | none => .ok ev1
      else .ok ev0

/-- The holdings fetch, category lookup and per-holding asset inserts of the
callback route (src/src/app/api/snaptrade/callback/route.ts:97-162).
Per-holding insert failures are logged and skipped, so every holding
contributes its insert event. -/
def importPhase (clientId consumerKey : String) (now : Nat) (env : CallbackEnv)
    (henv : HoldingsEnv) (userId : String) (reqAccountId : Option String)
    (ev : List CbEvent) : String × List CbEvent :=
  let ev2 := ev ++ [CbEvent.fetchHoldingsCall userId]
  match fetchSnapTradeHoldings clientId consumerKey henv userId with
  | .error m => (errRedirect m, ev2)
  | .ok holdings =>
    match env.category with
    | .error m => (errRedirect ("Category error: " ++ m), ev2)
    | .ok none => (errRedirect "Category not found", ev2)
    | .ok (some categoryId) =>
      ("/dashboard/assets?success=true",
        ev2 ++ holdings.map
          (fun h => .insertAsset (assetRowOf userId categoryId reqAccountId now h)))

/-- Embedding of the callback route's `GET`
(src/src/app/api/snaptrade/callback/route.ts:8-176).  The result is the
redirect target (path and query, relative to the request origin) and the
ordered trace of performed actions. -/
def callbackGET (clientId consumerKey : String) (now : Nat)
    (env : CallbackEnv) (henv : HoldingsEnv) (req : CallbackRequest) :
    String × List CbEvent :=
  if jsFalsy req.userId then
    ("/dashboard/assets?error=missing_user_id", [])
  else
    let userId := req.userId.getD ""
    if req.success ≠ some "true" ∧ jsFalsy req.code then
      ("/dashboard/assets?error=connection_failed", [])
    else
      match env.getUser with
      | .error m => (errRedirect ("Auth error: " ++ m), [])
      | .ok none => (errRedirect "No authenticated user", [])
      | .ok (some authId) =>
        if authId ≠ userId then
          (errRedirect "User mismatch", [])
        else
          match codePhase clientId consumerKey now env userId req.code with
          | .error (m, evs) => (errRedirect m, evs)
          | .ok evs =>
            importPhase clientId consumerKey now env henv userId
              req.accountId evs

/-- The JSON body fields the connection-link route reads
(`const { userId, brokerId, callbackUrl } = await request.json()`). -/
structure LinkRequest where
  userId : Option String
  brokerId : Option String
  callbackUrl : Option String

/-- Outcome of the best-effort `broker_connections` insert of the
connection-link route: the insert resolved (row recorded), the insert
resolved with an error object (ignored by the route, which never reads the
result), or the awaited chain threw (caught and logged). -/
inductive DbOutcome where
  | inserted
  | insertErrorReturned (e : String)
  | threw (e : String)
deriving DecidableEq

/-- The pending BrokerConnection row the connection-link route records
(src/unnamed/part_001, connection-link POST, lines 96-106). -/
def pendingRow (userId brokerIdEff : String) (now : Nat) : BrokerConnectionRow :=
  { user_id := userId
    broker_id := brokerIdEff
    api_key := "pending_connection"
    api_secret_encrypted := "pending_connection"
    is_active := some false
    broker_data := .connectionStarted now }

/-- Whether `pat` occurs as a contiguous run inside `s`. -/
def listIsInfix (pat : List Char) : List Char → Bool
  | [] => pat.isEmpty
  | c :: rest => pat.isPrefixOf (c :: rest) || listIsInfix pat rest

/-- `errorMessage.includes(pat)`. -/
def containsSubstr (s pat : String) : Bool := listIsInfix pat.data s.data

/-- The response body of the connection-link route: `{redirectUri}` or
`{error}`. -/
inductive LinkRespBody where
  | redirect (uri : Json)
  | err (msg : String)

/-- Embedding of the connection-link route's `POST`
(src/unnamed/part_001, lines 57-168): validate `userId` and `callbackUrl`,
call `createSnapTradeUserLink`, best-effort record the pending
BrokerConnection (any failure only logged), and answer 200 `{redirectUri}`;
an adapter error whose message contains HTML indicators answers 502, any
other 500.  The result is (status, body, rows recorded). -/
def linkPOST (clientId consumerKey : String) (useProxy : Bool) (lenv : LinkEnv)
    (db : DbOutcome) (now : Nat) (req : LinkRequest) :
    Nat × LinkRespBody × List BrokerConnectionRow :=
  if jsFalsy req.userId then (400, .err "User ID is required", [])
  else if jsFalsy req.callbackUrl then (400, .err "Callback URL is required", [])
  else
    let userId := req.userId.getD ""
    match createSnapTradeUserLink clientId consumerKey useProxy lenv userId
        (req.callbackUrl.getD "") req.brokerId with
    | .ok redirectUri =>
      let row := pendingRow userId
        (if jsFalsy req.brokerId then "snaptrade" else req.brokerId.getD "") now
      let recorded :=
        match db with
        | .inserted => [row]
        | .insertErrorReturned _ => []
        | .threw _ => []
      (200, .redirect redirectUri, recorded)
    | .error e =>
      if containsSubstr e "<!DOCTYPE" || containsSubstr e "<html" then
        (502,
          .err "Received HTML response from SnapTrade API. The service might be down or experiencing issues.",
          [])
      else (500, .err e, [])

/-- Fixture: a link environment for the server path whose portal call
returns a redirect URI. -/
def linkEnvDirect : LinkEnv :=
  { registerFetch := fun _ => .ok ⟨true, 200, "OK", "\x7b\x7d"⟩
    portalFetch := fun _ =>
      .ok ⟨true, 200, "OK",
        "\x7b\"redirectURI\":\"https://portal.example/connect\"\x7d"⟩ }

/-- Fixture: a callback environment with an authenticated session for
`user-1` and a healthy database. -/
def cbEnvAuthed : CallbackEnv :=
  { getUser := .ok (some "user-1")
    insertConnectionError := none
    category := .ok (some "cat-inv") }

/-- Fixture: a callback environment with no authenticated session. -/
def cbEnvNoSession : CallbackEnv :=
  { getUser := .ok none
    insertConnectionError := none
    category := .ok (some "cat-inv") }

/-- Fixture: a callback environment authenticated as a different user. -/
def cbEnvOtherUser : CallbackEnv :=
  { getUser := .ok (some "user-2")
    insertConnectionError := none
    category := .ok (some "cat-inv") }

/-- Fixture: a holdings environment with no linked accounts. -/
def envNoAccounts : HoldingsEnv :=
  { accountsFetch := fun _ => .ok ⟨true, 200, []⟩
    balancesFetch := fun _ _ => .ok ⟨true, 200, []⟩
    holdingsFetch := fun _ _ => .ok ⟨true, 200, []⟩ }

/-- When the per-account loop completes, the accumulated cash is the initial
accumulator plus the per-account cash contributions. -/
theorem processAccounts_cash (env : HoldingsEnv) (accounts : List Account) :
    ∀ (acc : List Holding) (c0 : Rat) (hs : List Holding) (total : Rat),
      processAccounts env accounts acc c0 = .ok (hs, total) →
      total = c0 + sumCash env accounts := by
  induction accounts with
  | nil =>
    intro acc c0 hs total h
    simp [processAccounts] at h
    simp [sumCash, h.2]
  | cons account rest ih =>
    intro acc c0 hs total h
    unfold processAccounts at h
    cases hb : env.balancesFetch account.id 0 with
    | error e => rw [hb] at h; exact absurd h (by simp)
    | ok bresp =>
      rw [hb] at h
      cases hh : env.holdingsFetch account.id 0 with
      | error e => simp [hh] at h
      | ok hresp =>
        simp only [hh] at h
        by_cases hok : hresp.ok
        · simp only [hok, if_true] at h
          have := ih _ _ _ _ h
          simp [sumCash, accountCash, hb, this]
          by_cases hbok : bresp.ok <;> simp [hbok] <;> ring
        · simp only [hok, if_false] at h
          have := ih _ _ _ _ h
          simp [sumCash, accountCash, hb, this]
          by_cases hbok : bresp.ok <;> simp [hbok] <;> ring

/-- C1: when every attempt fails at the transport level, the retrying client
makes exactly 4 tries (attempts 0,1,2,3), waits 1000ms, 2000ms, 4000ms before
the 2nd, 3rd and 4th tries, and propagates the error of the final (4th)
attempt. -/
theorem fetchWithRetry_exhausts_budget {ε ρ : Type} (oracle : FetchOracle ε ρ)
    (errs : Nat → ε) (hfail : ∀ n, oracle n = .error (errs n)) :
    retryCalls oracle = [0, 1, 2, 3] ∧
    retryDelays oracle = [1000, 2000, 4000] ∧
    retryResult (ρ := ρ) oracle = .error (errs 3) := by
  unfold retryCalls retryDelays retryResult
  simp [fetchWithRetry, hfail 0, hfail 1, hfail 2, hfail 3]

/-- Witness for C1 at a concrete always-failing oracle. -/
theorem fetchWithRetry_exhausts_budget_witness :
    retryCalls (fun n => (.error (toString n) : Except String Unit)) = [0, 1, 2, 3] ∧
    retryDelays (fun n => (.error (toString n) : Except String Unit)) = [1000, 2000, 4000] ∧
    retryResult (fun n => (.error (toString n) : Except String Unit)) = .error "3" := by
  have h := fetchWithRetry_exhausts_budget
    (ρ := Unit) (fun n => (.error (toString n) : Except String Unit))
    (fun n => toString n) (fun _ => rfl)
  simpa using h

/-- C10: whenever the client/consumer credentials are configured,
`handleSnapTradeCallback` succeeds for every user id and every code, makes no
outbound call, and returns the generated account id
`"snaptrade-account-" ++ Date.now()`. -/
theorem handleCallback_always_succeeds (clientId consumerKey userId code : String)
    (now : Nat) (hc : clientId ≠ "") (hk : consumerKey ≠ "") :
    handleSnapTradeCallback clientId consumerKey userId code now =
      ([], .ok { success := true
                 message := "Account connected successfully"
                 accountId := "snaptrade-account-" ++ toString now }) := by
  unfold handleSnapTradeCallback
  simp [hc, hk]

/-- Witness for C10 at concrete credentials, user, code and clock. -/
theorem handleCallback_always_succeeds_witness :
    handleSnapTradeCallback "cid" "ckey" "user-1" "any-code" 17 =
      ([], .ok { success := true
                 message := "Account connected successfully"
                 accountId := "snaptrade-account-17" }) := by
  have h := handleCallback_always_succeeds "cid" "ckey" "user-1" "any-code" 17
    (by decide) (by decide)
  simpa using h

/-- C3: when the user has two accounts and the first account's holdings fetch
resolves with a non-2xx status while the second succeeds, the failed account
is skipped (no error is raised) and the result is exactly the second
account's holdings, plus the synthetic CASH holding when the accumulated
cash is positive. -/
theorem fetchHoldings_skips_failed_account
    (clientId consumerKey userId : String) (env : HoldingsEnv)
    (a1 a2 : Account) (st st1 st2 : Nat)
    (b1 b2 : HttpJson (List Balance))
    (junk hs : List RawHolding)
    (hc : clientId ≠ "") (hk : consumerKey ≠ "")
    (ha : env.accountsFetch 0 = .ok ⟨true, st, [a1, a2]⟩)
    (hb1 : env.balancesFetch a1.id 0 = .ok b1)
    (hb2 : env.balancesFetch a2.id 0 = .ok b2)
    (hh1 : env.holdingsFetch a1.id 0 = .ok ⟨false, st1, junk⟩)
    (hh2 : env.holdingsFetch a2.id 0 = .ok ⟨true, st2, hs⟩) :
    fetchSnapTradeHoldings clientId consumerKey env userId =
      .ok (hs.map (toHolding a2) ++
        (if 0 < sumCash env [a1, a2] then [cashHolding (sumCash env [a1, a2])]
         else [])) := by
  have hpa : processAccounts env [a1, a2] [] 0 =
      .ok (hs.map (toHolding a2), sumCash env [a1, a2]) := by
    simp [processAccounts, hb1, hh1, hb2, hh2, sumCash, accountCash]
    by_cases o1 : b1.ok <;> by_cases o2 : b2.ok <;> simp [o1, o2] <;> ring
  by_cases hpos : 0 < sumCash env [a1, a2] <;>
    simp [fetchSnapTradeHoldings, hc, hk, ha, hpa, hpos]

/-- Witness for C3 on the two-account fixture: the failed account `acct-A`
contributes no positions, the result is `acct-B`'s AAPL holding followed by
the synthetic $50 CASH holding. -/
theorem fetchHoldings_skips_failed_account_witness :
    fetchSnapTradeHoldings "cid" "ckey" envTwoAccounts "u" =
      .ok [toHolding acctB rawAAPL, cashHolding 50] := by
  have h := fetchHoldings_skips_failed_account "cid" "ckey" "u" envTwoAccounts
    acctA acctB 200 500 200
    ⟨true, 200, [{ currency := "USD", cash := true, amount := 50 }]⟩
    ⟨true, 200, []⟩ [] [rawAAPL]
    (by decide) (by decide) rfl rfl rfl rfl rfl
  have hsum : sumCash envTwoAccounts [acctA, acctB] = 50 := by
    simp [sumCash, accountCash, envTwoAccounts, acctA, acctB, usdCashBalance]
  rw [h, hsum]
  norm_num

/-- C4: when the per-account loop completes with positive accumulated cash,
exactly one synthetic CASH holding is appended at the end of the returned
list and its `totalValue` is the sum of the cash collected across accounts;
when the accumulated cash is not positive, nothing is appended. -/
theorem fetchHoldings_cash_holding (clientId consumerKey userId : String)
    (env : HoldingsEnv) (st : Nat) (accounts : List Account)
    (hs : List Holding) (cash : Rat)
    (hc : clientId ≠ "") (hk : consumerKey ≠ "")
    (ha : env.accountsFetch 0 = .ok ⟨true, st, accounts⟩)
    (hpa : processAccounts env accounts [] 0 = .ok (hs, cash)) :
    cash = sumCash env accounts ∧
    (0 < cash →
      fetchSnapTradeHoldings clientId consumerKey env userId =
        .ok (hs ++ [cashHolding cash]) ∧ (cashHolding cash).totalValue = cash) ∧
    (¬ 0 < cash →
      fetchSnapTradeHoldings clientId consumerKey env userId = .ok hs) := by
  have hsum := processAccounts_cash env accounts [] 0 hs cash hpa
  refine ⟨by simpa using hsum, ?_, ?_⟩
  · intro hpos
    exact ⟨by simp [fetchSnapTradeHoldings, hc, hk, ha, hpa, hpos], rfl⟩
  · intro hneg
    simp [fetchSnapTradeHoldings, hc, hk, ha, hpa, hneg]

/-- Witness for C4 on the two-account fixture: the collected cash is 50 > 0,
so the CASH holding is appended with `totalValue = 50`. -/
theorem fetchHoldings_cash_holding_witness :
    (50 : Rat) = sumCash envTwoAccounts [acctA, acctB] ∧
    ((0 : Rat) < 50 →
      fetchSnapTradeHoldings "cid" "ckey" envTwoAccounts "u" =
        .ok ([toHolding acctB rawAAPL] ++ [cashHolding 50]) ∧
        (cashHolding 50).totalValue = 50) ∧
    (¬ (0 : Rat) < 50 →
      fetchSnapTradeHoldings "cid" "ckey" envTwoAccounts "u" =
        .ok [toHolding acctB rawAAPL]) := by
  have hpa : processAccounts envTwoAccounts [acctA, acctB] [] 0 =
      .ok ([toHolding acctB rawAAPL], 50) := by
    simp [processAccounts, envTwoAccounts, acctA, acctB, usdCashBalance]
  exact fetchHoldings_cash_holding "cid" "ckey" "u" envTwoAccounts 200
    [acctA, acctB] [toHolding acctB rawAAPL] 50
    (by decide) (by decide) rfl hpa

/-- Removing trailing whitespace cannot change a nonempty head. -/
theorem trimEnd_head (cs : List Char) (c : Char)
    (h : (trimEnd cs).head? = some c) : cs.head? = some c := by
  cases cs with
  | nil => simp [trimEnd] at h
  | cons a rest =>
    unfold trimEnd at h
    cases htr : trimEnd rest with
    | nil =>
      rw [htr] at h
      by_cases hws : isJsWs a
      · simp [hws] at h
      · simp [hws] at h
        simp [h]
    | cons x xs =>
      rw [htr] at h
      simp at h
      simp [h]

/-- A body whose trimmed form starts with `<!DOCTYPE` or `<html` starts,
after leading whitespace, with `<`. -/
theorem trimStartsWithHtml_head (cs : List Char)
    (h : trimStartsWithHtml cs = true) : (skipWs cs).head? = some '<' := by
  apply trimEnd_head
  show (jsTrim cs).head? = some '<'
  unfold trimStartsWithHtml at h
  rw [Bool.or_eq_true] at h
  cases hj : jsTrim cs with
  | nil =>
    rw [hj] at h
    cases h with
    | inl h1 => simp [docTypeLit, List.isPrefixOf] at h1
    | inr h2 => simp [htmlLit, List.isPrefixOf] at h2
  | cons x xs =>
    rw [hj] at h
    cases h with
    | inl h1 =>
      simp [docTypeLit, List.isPrefixOf] at h1
      simp [← h1.1]
    | inr h2 =>
      simp [htmlLit, List.isPrefixOf] at h2
      simp [← h2.1]

/-- `JSON.parse` rejects any input whose first non-whitespace character is
`<`: no JSON value starts with that character. -/
theorem jsonParse_head_lt (cs : List Char)
    (h : (skipWs cs).head? = some '<') : jsonParse cs = none := by
  cases hsk : skipWs cs with
  | nil => rw [hsk] at h; simp at h
  | cons c tl =>
    rw [hsk] at h
    simp at h
    subst h
    unfold jsonParse
    have hv : parseValue (cs.length + 1) cs = none := by
      unfold parseValue
      rw [hsk]
      simp [Char.isDigit]
    rw [hv]

/-- The HTML-response error message is distinct from the wrapped generic
parse-failure message, whatever the bodies involved. -/
theorem htmlErrMsg_ne_readFail (t s : String) : htmlErrMsg t ≠ readFailMsg s := by
  intro heq
  have hd : (htmlErrMsg t).data = (readFailMsg s).data := by rw [heq]
  have h1 : (htmlErrMsg t).data.take 4 = ['R', 'e', 'c', 'e'] := by
    have he : (htmlErrMsg t).data =
        ("Received HTML response from SnapTrade API. The service might be down or experiencing issues. HTML preview: " : String).data
          ++ (takeChars 100 t ++ "...").data := rfl
    rw [he, List.take_append_of_le_length (by decide)]
    decide
  have h2 : (readFailMsg s).data.take 4 = ['F', 'a', 'i', 'l'] := by
    have he : (readFailMsg s).data =
        ("Failed to read response from SnapTrade API: " : String).data ++ s.data := rfl
    rw [he, List.take_append_of_le_length (by decide)]
    decide
  rw [hd, h2] at h1
  exact absurd h1 (by decide)

/-- C2: on the browser/proxy path of `createSnapTradeUserLink`, whenever the
relay's response body (for the register step, or for the portal step once
registration fully succeeded — an ok mock `Response` whose `.json()`
yielded data) trims to something starting with `<!DOCTYPE` or `<html`, the
call fails with the distinct HTML-response error message ("Received HTML
response from SnapTrade API. The service might be down…"), which is never
equal to the wrapped generic JSON-parse error. -/
theorem createLink_html_response_error
    (clientId consumerKey userId redirectUri : String) (brokerId : Option String)
    (env : LinkEnv)
    (hc : clientId ≠ "") (hk : consumerKey ≠ "") :
    (∀ (b : Bool) (st : Nat) (stx t : String),
      env.registerFetch 0 = .ok ⟨b, st, stx, t⟩ →
      trimStartsWithHtml t.data = true →
      createSnapTradeUserLink clientId consumerKey true env userId redirectUri
        brokerId = .error (htmlErrMsg t)) ∧
    (∀ (r : JsResp) (d : Json) (b2 : Bool) (st2 : Nat) (stx2 t2 : String),
      proxyStep env.registerFetch = .ok r → r.ok = true →
      r.jsonBody = .ok d →
      env.portalFetch 0 = .ok ⟨b2, st2, stx2, t2⟩ →
      trimStartsWithHtml t2.data = true →
      createSnapTradeUserLink clientId consumerKey true env userId redirectUri
        brokerId = .error (htmlErrMsg t2)) ∧
    (∀ (t s : String), htmlErrMsg t ≠ readFailMsg (parseFailMsg s)) := by
  refine ⟨?_, ?_, fun t s => htmlErrMsg_ne_readFail t (parseFailMsg s)⟩
  · intro b st stx t hreg hhtml
    have hjp : jsonParse t.data = none :=
      jsonParse_head_lt _ (trimStartsWithHtml_head _ hhtml)
    have hps : proxyStep env.registerFetch = .error (htmlErrMsg t) := by
      simp [proxyStep, retryResult, fetchWithRetry, hreg, hjp, hhtml]
    simp [createSnapTradeUserLink, hc, hk, hps]
  · intro r d b2 st2 stx2 t2 hreg hrok hrdata hport hhtml
    have hjp : jsonParse t2.data = none :=
      jsonParse_head_lt _ (trimStartsWithHtml_head _ hhtml)
    have hps : proxyStep env.portalFetch = .error (htmlErrMsg t2) := by
      simp [proxyStep, retryResult, fetchWithRetry, hport, hjp, hhtml]
    simp [createSnapTradeUserLink, hc, hk, hreg, hrok, hrdata, hps]

/-- Witness for C2: concrete HTML bodies on the register and the portal
steps both produce the HTML-response error, which differs from the generic
parse-failure message. -/
theorem createLink_html_response_error_witness :
    createSnapTradeUserLink "cid" "ckey" true linkEnvHtml "u" "https://cb" none =
      .error (htmlErrMsg "<!DOCTYPE html><body>502</body>") ∧
    createSnapTradeUserLink "cid" "ckey" true linkEnvHtmlPortal "u" "https://cb"
      none = .error (htmlErrMsg "<html><body>down</body></html>") ∧
    htmlErrMsg "<!DOCTYPE html><body>502</body>" ≠
      readFailMsg (parseFailMsg "<!DOCTYPE html><body>502</body>") := by
  have h := createLink_html_response_error "cid" "ckey" "u" "https://cb" none
    linkEnvHtml (by decide) (by decide)
  have h2 := createLink_html_response_error "cid" "ckey" "u" "https://cb" none
    linkEnvHtmlPortal (by decide) (by decide)
  refine ⟨h.1 true 200 "OK" "<!DOCTYPE html><body>502</body>" rfl (by decide),
    h2.2.1 { ok := true, status := 200, jsonBody := .ok (.obj []) } (.obj [])
      true 200 "OK" "<html><body>down</body></html>" ?_ rfl rfl rfl (by decide),
    h.2.2 "<!DOCTYPE html><body>502</body>" "<!DOCTYPE html><body>502</body>"⟩
  rfl

/-- Counterexample for C9: the accounts-list call of `fetchSnapTradeHoldings`
is NOT wrapped by the retrying client.  A single transport-level failure on
the first attempt propagates the error immediately, even though the retrying
client over the same oracle would have absorbed it and succeeded. -/
theorem holdings_fetch_not_retried_cex :
    fetchSnapTradeHoldings "cid" "ckey" envTransient "u" = .error "network down" ∧
    retryResult envTransient.accountsFetch = .ok ⟨true, 200, []⟩ ∧
    retryDelays envTransient.accountsFetch = [1000] := by
  exact ⟨rfl, rfl, rfl⟩

/-- C9 (amended): only the register-user and connection-portal calls of
`createSnapTradeUserLink` go through the retrying client; the accounts,
balances and holdings fetches of `fetchSnapTradeHoldings` call `fetch`
directly, so a single transport-level failure on any of them propagates
immediately, while a single transport failure on the register call is
absorbed by the retry wrapper. -/
theorem retry_wrapping_scope :
    (∀ (clientId consumerKey userId : String) (env : HoldingsEnv) (e : String),
      clientId ≠ "" → consumerKey ≠ "" →
      env.accountsFetch 0 = .error e →
      fetchSnapTradeHoldings clientId consumerKey env userId = .error e) ∧
    (∀ (clientId consumerKey userId : String) (env : HoldingsEnv)
       (a : Account) (rest : List Account) (st : Nat) (e : String),
      clientId ≠ "" → consumerKey ≠ "" →
      env.accountsFetch 0 = .ok ⟨true, st, a :: rest⟩ →
      env.balancesFetch a.id 0 = .error e →
      fetchSnapTradeHoldings clientId consumerKey env userId = .error e) ∧
    (∀ (clientId consumerKey userId : String) (env : HoldingsEnv)
       (a : Account) (rest : List Account) (st : Nat)
       (b : HttpJson (List Balance)) (e : String),
      clientId ≠ "" → consumerKey ≠ "" →
      env.accountsFetch 0 = .ok ⟨true, st, a :: rest⟩ →
      env.balancesFetch a.id 0 = .ok b →
      env.holdingsFetch a.id 0 = .error e →
      fetchSnapTradeHoldings clientId consumerKey env userId = .error e) ∧
    (∀ (clientId consumerKey userId redirectUri : String)
       (brokerId : Option String) (env : LinkEnv) (e : String) (r : RawResp),
      env.registerFetch 0 = .error e → env.registerFetch 1 = .ok r →
      createSnapTradeUserLink clientId consumerKey false env userId redirectUri
        brokerId =
      createSnapTradeUserLink clientId consumerKey false
        { env with registerFetch := fun _ => .ok r } userId redirectUri
        brokerId) := by
  refine ⟨?_, ?_, ?_, ?_⟩
  · intro clientId consumerKey userId env e hc hk ha
    simp [fetchSnapTradeHoldings, hc, hk, ha]
  · intro clientId consumerKey userId env a rest st e hc hk ha hb
    simp [fetchSnapTradeHoldings, processAccounts, hc, hk, ha, hb]
  · intro clientId consumerKey userId env a rest st b e hc hk ha hb hh
    simp [fetchSnapTradeHoldings, processAccounts, hc, hk, ha, hb, hh]
  · intro clientId consumerKey userId redirectUri brokerId env e r h0 h1
    have hds : directStep env.registerFetch = directStep (fun _ => .ok r) := by
      simp [directStep, retryResult, fetchWithRetry, h0, h1]
    simp [createSnapTradeUserLink, hds]

/-- Witness for C9's amended statement, instantiating each conjunct on a
concrete environment. -/
theorem retry_wrapping_scope_witness :
    fetchSnapTradeHoldings "cid" "ckey" envTransient "u" = .error "network down" ∧
    fetchSnapTradeHoldings "cid" "ckey" envBalancesFail "u" =
      .error "balances network fail" ∧
    fetchSnapTradeHoldings "cid" "ckey" envHoldingsFail "u" =
      .error "holdings network fail" ∧
    createSnapTradeUserLink "cid" "ckey" false linkEnvRetry "u" "https://cb"
      none =
    createSnapTradeUserLink "cid" "ckey" false
      { linkEnvRetry with
        registerFetch := fun _ => .ok ⟨true, 200, "OK", "\x7b\x7d"⟩ }
      "u" "https://cb" none := by
  refine ⟨retry_wrapping_scope.1 "cid" "ckey" "u" envTransient "network down"
      (by decide) (by decide) rfl,
    retry_wrapping_scope.2.1 "cid" "ckey" "u" envBalancesFail acctA []
      200 "balances network fail" (by decide) (by decide) rfl rfl,
    retry_wrapping_scope.2.2.1 "cid" "ckey" "u" envHoldingsFail acctA []
      200 ⟨true, 200, []⟩ "holdings network fail" (by decide) (by decide)
      rfl rfl rfl,
    retry_wrapping_scope.2.2.2 "cid" "ckey" "u" "https://cb" none linkEnvRetry
      "transient" ⟨true, 200, "OK", "\x7b\x7d"⟩ rfl rfl⟩

/-- C5: a callback request without a usable `userId` redirects to
`/dashboard/assets?error=missing_user_id` and performs no action at all —
in particular no BrokerConnection and no Asset insert. -/
theorem callback_missing_userId_no_writes
    (clientId consumerKey : String) (now : Nat) (env : CallbackEnv)
    (henv : HoldingsEnv) (req : CallbackRequest)
    (h : jsFalsy req.userId = true) :
    callbackGET clientId consumerKey now env henv req =
      ("/dashboard/assets?error=missing_user_id", []) := by
  simp [callbackGET, h]

/-- Witness for C5 at a concrete request with no `userId` parameter. -/
theorem callback_missing_userId_no_writes_witness :
    callbackGET "cid" "ckey" 7 cbEnvAuthed envNoAccounts
      ⟨none, none, some "true", some "code-1"⟩ =
      ("/dashboard/assets?error=missing_user_id", []) :=
  callback_missing_userId_no_writes "cid" "ckey" 7 cbEnvAuthed envNoAccounts
    ⟨none, none, some "true", some "code-1"⟩ rfl

/-- C6: a callback request whose `userId` mismatches the authenticated
session (or arrives with no session) redirects with an error marker and
performs no database writes — in particular no Asset insert. -/
theorem callback_user_mismatch_no_assets
    (clientId consumerKey : String) (now : Nat) (env : CallbackEnv)
    (henv : HoldingsEnv) (req : CallbackRequest) (u : String)
    (hreq : req.userId = some u)
    (hses : env.getUser = .ok none ∨
      ∃ v, env.getUser = .ok (some v) ∧ v ≠ u) :
    ∃ rest, callbackGET clientId consumerKey now env henv req =
      ("/dashboard/assets?error=" ++ rest, []) := by
  by_cases hfal : jsFalsy req.userId = true
  · refine ⟨"missing_user_id", ?_⟩
    simp [callbackGET, hfal]
  · by_cases hguard : req.success ≠ some "true" ∧ jsFalsy req.code = true
    · refine ⟨"connection_failed", ?_⟩
      simp [callbackGET, hfal, hguard]
    · rcases hses with hns | ⟨v, hv, hne⟩
      · refine ⟨"true&message=No authenticated user", ?_⟩
        simp [callbackGET, hfal, hguard, hns, errRedirect, encodeURIComponent]
      · refine ⟨"true&message=User mismatch", ?_⟩
        have hau : v ≠ req.userId.getD "" := by
          rw [hreq]
          simpa using hne
        simp [callbackGET, hfal, hguard, hv, hau, errRedirect,
          encodeURIComponent]

/-- Witness for C6: both a missing session and a mismatched session on
concrete requests. -/
theorem callback_user_mismatch_no_assets_witness :
    (∃ rest, callbackGET "cid" "ckey" 7 cbEnvNoSession envNoAccounts
      ⟨some "user-1", none, some "true", none⟩ =
      ("/dashboard/assets?error=" ++ rest, [])) ∧
    (∃ rest, callbackGET "cid" "ckey" 7 cbEnvOtherUser envNoAccounts
      ⟨some "user-1", none, some "true", none⟩ =
      ("/dashboard/assets?error=" ++ rest, [])) :=
  ⟨callback_user_mismatch_no_assets "cid" "ckey" 7 cbEnvNoSession envNoAccounts
      ⟨some "user-1", none, some "true", none⟩ "user-1" rfl (Or.inl rfl),
   callback_user_mismatch_no_assets "cid" "ckey" 7 cbEnvOtherUser envNoAccounts
      ⟨some "user-1", none, some "true", none⟩ "user-1" rfl
      (Or.inr ⟨"user-2", rfl, by decide⟩)⟩

/-- C7: a connection-link POST with usable `userId` and `callbackUrl` for
which the adapter yields a portal URL answers 200 `{redirectUri}` whatever
the best-effort insert does (its failure is logged, never surfaced), and a
successful insert records exactly one pending row with `is_active = false`. -/
theorem linkPOST_returns_portal
    (clientId consumerKey : String) (useProxy : Bool) (lenv : LinkEnv)
    (db : DbOutcome) (now : Nat) (req : LinkRequest) (u cb : String) (uri : Json)
    (hreq : req.userId = some u) (hu : u ≠ "")
    (hcb : req.callbackUrl = some cb) (hcbne : cb ≠ "")
    (hlink : createSnapTradeUserLink clientId consumerKey useProxy lenv u cb
      req.brokerId = .ok uri) :
    linkPOST clientId consumerKey useProxy lenv db now req =
      (200, .redirect uri,
        if db = .inserted then
          [pendingRow u (if jsFalsy req.brokerId then "snaptrade"
            else req.brokerId.getD "") now]
        else []) ∧
    (pendingRow u (if jsFalsy req.brokerId then "snaptrade"
      else req.brokerId.getD "") now).is_active = some false := by
  constructor
  · simp [linkPOST, hreq, hcb, jsFalsy, hu, hcbne, hlink]
    cases db <;> simp
  · rfl

/-- Witness for C7: with a failing insert the route still answers 200 with
the portal URL and records nothing; with a successful insert it records the
pending row, which has `is_active = false`. -/
theorem linkPOST_returns_portal_witness :
    (linkPOST "cid" "ckey" false linkEnvDirect (.threw "db down") 3
        ⟨some "u1", none, some "https://x/cb"⟩ =
      (200, .redirect (.str "https://portal.example/connect"), []) ∧
      (pendingRow "u1" "snaptrade" 3).is_active = some false) ∧
    (linkPOST "cid" "ckey" false linkEnvDirect .inserted 3
        ⟨some "u1", none, some "https://x/cb"⟩ =
      (200, .redirect (.str "https://portal.example/connect"),
        [pendingRow "u1" "snaptrade" 3]) ∧
      (pendingRow "u1" "snaptrade" 3).is_active = some false) := by
  have h1 := linkPOST_returns_portal "cid" "ckey" false linkEnvDirect
    (.threw "db down") 3 ⟨some "u1", none, some "https://x/cb"⟩ "u1"
    "https://x/cb" (.str "https://portal.example/connect") rfl (by decide) rfl
    (by decide) rfl
  have h2 := linkPOST_returns_portal "cid" "ckey" false linkEnvDirect
    .inserted 3 ⟨some "u1", none, some "https://x/cb"⟩ "u1"
    "https://x/cb" (.str "https://portal.example/connect") rfl (by decide) rfl
    (by decide) rfl
  constructor
  · exact ⟨by simpa using h1.1, h1.2⟩
  · exact ⟨by simpa using h2.1, h2.2⟩

/-- C8: a callback request that passes identity verification and carries a
code has the code exchanged through `handleSnapTradeCallback`; the exchange
succeeding, the connected BrokerConnection insert for that user happens
before the holdings fetch (and a failing insert aborts the run before any
holdings are fetched). -/
theorem callback_code_exchange_connected_before_holdings
    (clientId consumerKey : String) (now : Nat) (env : CallbackEnv)
    (henv : HoldingsEnv) (req : CallbackRequest) (u c : String)
    (hc : clientId ≠ "") (hk : consumerKey ≠ "")
    (hreq : req.userId = some u) (hu : u ≠ "")
    (hcode : req.code = some c) (hcne : c ≠ "")
    (hses : env.getUser = .ok (some u)) :
    (env.insertConnectionError = none →
      ∃ rest, (callbackGET clientId consumerKey now env henv req).2 =
        CbEvent.callbackExchange u c ::
        CbEvent.insertBrokerConnection (connectedRow u now) ::
        CbEvent.fetchHoldingsCall u :: rest) ∧
    (∀ m, env.insertConnectionError = some m →
      callbackGET clientId consumerKey now env henv req =
        (errRedirect ("Connection error: " ++ m),
          [CbEvent.callbackExchange u c,
           CbEvent.insertBrokerConnection (connectedRow u now)])) := by
  constructor
  · intro hins
    have hcp : codePhase clientId consumerKey now env u (some c) =
        .ok [CbEvent.callbackExchange u c,
          CbEvent.insertBrokerConnection (connectedRow u now)] := by
      simp [codePhase, jsFalsy, hcne, handleSnapTradeCallback, hc, hk, hins]
    cases hh : fetchSnapTradeHoldings clientId consumerKey henv u with
    | error m =>
      refine ⟨[], ?_⟩
      simp [callbackGET, hreq, hcode, jsFalsy, hu, hcne, hses, hcp,
        importPhase, hh]
    | ok holdings =>
      cases hcat : env.category with
      | error m =>
        refine ⟨[], ?_⟩
        simp [callbackGET, hreq, hcode, jsFalsy, hu, hcne, hses, hcp,
          importPhase, hh, hcat]
      | ok categoryOpt =>
        cases categoryOpt with
        | none =>
          refine ⟨[], ?_⟩
          simp [callbackGET, hreq, hcode, jsFalsy, hu, hcne, hses, hcp,
            importPhase, hh, hcat]
        | some categoryId =>
          refine ⟨holdings.map
            (fun h => .insertAsset (assetRowOf u categoryId req.accountId now h)),
            ?_⟩
          simp [callbackGET, hreq, hcode, jsFalsy, hu, hcne, hses, hcp,
            importPhase, hh, hcat]
  · intro m hins
    have hcp : codePhase clientId consumerKey now env u (some c) =
        .error ("Connection error: " ++ m,
          [CbEvent.callbackExchange u c,
           CbEvent.insertBrokerConnection (connectedRow u now)]) := by
      simp [codePhase, jsFalsy, hcne, handleSnapTradeCallback, hc, hk, hins]
    simp [callbackGET, hreq, hcode, jsFalsy, hu, hcne, hses, hcp]

/-- Witness for C8 on an authenticated request carrying a code: the trace
opens with the exchange, the connected-row insert, then the holdings fetch. -/
theorem callback_code_exchange_connected_before_holdings_witness :
    ∃ rest, (callbackGET "cid" "ckey" 7 cbEnvAuthed envNoAccounts
        ⟨some "user-1", none, some "true", some "code-1"⟩).2 =
      CbEvent.callbackExchange "user-1" "code-1" ::
      CbEvent.insertBrokerConnection (connectedRow "user-1" 7) ::
      CbEvent.fetchHoldingsCall "user-1" :: rest :=
  (callback_code_exchange_connected_before_holdings "cid" "ckey" 7
    cbEnvAuthed envNoAccounts ⟨some "user-1", none, some "true", some "code-1"⟩
    "user-1" "code-1" (by decide) (by decide) rfl (by decide) rfl (by decide)
    rfl).1 rfl
